import Mathlib

/-!
Verification of the discrete numeric contracts of `src/old_stuff/num.rs`.

The Rust file declares two capability traits (`Integer`, `ModularInteger`),
six free forwarding functions, and an empty marker trait `Real`.  Traits are
embedded as Lean structures whose fields are the trait methods; a default
method body becomes both a default field value and a standalone `default_*`
definition so that theorems can speak about the default independently of any
override.  The external `algebra::CommutativeRing` capability is rendered as
`CommRing`, the `Eq + Ord` bound as `LinearOrder`.
-/

/-- Modelled from the spec: the `ident` module (`use ident;` in num.rs) is not
part of src/.  Per spec section 3, `ident::unit()` is the identity of
multiplication, "the one of the ring". -/
def ident.unit {α : Type} [One α] : α := (1 : α)

/-- Embedding of `pub trait Integer : Eq + Ord + CommutativeRing`
(num.rs lines 27-86).  Required methods are plain fields; the default methods
`succ`, `t_div_mod`, `f_div_mod` carry the default bodies of the source as
default field values. -/
structure Integer (α : Type) [CommRing α] [LinearOrder α] where
  succ : α → α := fun x => x + ident.unit
  t_div : α → α → α
  t_mod : α → α → α
  t_div_mod : α → α → α × α := fun a b => (t_div a b, t_mod a b)
  f_div : α → α → α
  f_mod : α → α → α
  f_div_mod : α → α → α × α := fun a b => (f_div a b, f_mod a b)
  gcd : α → α → α
  lcm : α → α → α

/-- The default body of `Integer::succ` (num.rs line 31):
`*self + ident::unit()`. -/
def Integer.default_succ {α : Type} [CommRing α] [LinearOrder α] (x : α) : α :=
  x + ident.unit

/-- The default body of `Integer::t_div_mod` (num.rs lines 56-59): the pair of
the forwarding calls `(t_div(a, b), t_mod(a, b))`, which dispatch to the
possibly overridden `Integer::t_div` and `Integer::t_mod` of the instance. -/
def Integer.default_t_div_mod {α : Type} [CommRing α] [LinearOrder α]
    (I : Integer α) (a b : α) : α × α :=
  (I.t_div a b, I.t_mod a b)

/-- The default body of `Integer::f_div_mod` (num.rs lines 76-79). -/
def Integer.default_f_div_mod {α : Type} [CommRing α] [LinearOrder α]
    (I : Integer α) (a b : α) : α × α :=
  (I.f_div a b, I.f_mod a b)

/-- Embedding of `pub trait ModularInteger : Integer` (num.rs lines 88-95). -/
structure ModularInteger (α : Type) [CommRing α] [LinearOrder α] extends
    Integer α where
  min_value : α
  max_value : α
  congruent : α → α → Bool
  pred : α → α := fun x => x - ident.unit

/-- The default body of `ModularInteger::pred` (num.rs line 94):
`*self - ident::unit()`. -/
def ModularInteger.default_pred {α : Type} [CommRing α] [LinearOrder α]
    (x : α) : α :=
  x - ident.unit

/-- Free function `pub fn t_div<T: Integer>` (num.rs lines 97-100): forwards
to `Integer::t_div`. -/
def t_div {α : Type} [CommRing α] [LinearOrder α] (I : Integer α) (a b : α) :
    α :=
  I.t_div a b

/-- Free function `pub fn t_mod<T: Integer>` (num.rs lines 102-105). -/
def t_mod {α : Type} [CommRing α] [LinearOrder α] (I : Integer α) (a b : α) :
    α :=
  I.t_mod a b

/-- Free function `pub fn t_div_mod<T: Integer>` (num.rs lines 107-110). -/
def t_div_mod {α : Type} [CommRing α] [LinearOrder α] (I : Integer α)
    (a b : α) : α × α :=
  I.t_div_mod a b

/-- Free function `pub fn f_div<T: Integer>` (num.rs lines 112-115). -/
def f_div {α : Type} [CommRing α] [LinearOrder α] (I : Integer α) (a b : α) :
    α :=
  I.f_div a b

/-- Free function `pub fn f_mod<T: Integer>` (num.rs lines 117-120). -/
def f_mod {α : Type} [CommRing α] [LinearOrder α] (I : Integer α) (a b : α) :
    α :=
  I.f_mod a b

/-- Free function `pub fn f_div_mod<T: Integer>` (num.rs lines 122-125). -/
def f_div_mod {α : Type} [CommRing α] [LinearOrder α] (I : Integer α)
    (a b : α) : α × α :=
  I.f_div_mod a b

/-- The names of the trait operations declared in num.rs. -/
inductive OpName
  | succ | t_div | t_mod | t_div_mod | f_div | f_mod | f_div_mod | gcd | lcm
  | min_value | max_value | congruent | pred
  deriving DecidableEq

/-- Methods of `trait Integer` in source order (num.rs lines 27-86). -/
def integerTraitOps : List OpName :=
  [.succ, .t_div, .t_mod, .t_div_mod, .f_div, .f_mod, .f_div_mod, .gcd, .lcm]

/-- Methods of `trait ModularInteger` (num.rs lines 88-95). -/
def modularIntegerTraitOps : List OpName :=
  [.min_value, .max_value, .congruent, .pred]

/-- The free functions of num.rs lines 97-125, listed by the trait operation
each one forwards to. -/
def freeFunctionOps : List OpName :=
  [.t_div, .t_mod, .t_div_mod, .f_div, .f_mod, .f_div_mod]

/-- Methods declared in the body of `trait Real` (num.rs lines 127-130):
none, the body is empty. -/
def realTraitOps : List OpName := []

/-- The trait bounds appearing in num.rs. -/
inductive TraitBound
  | eq | ord | commutativeRing | integer | partialOrd | field
  deriving DecidableEq

/-- Supertraits of `trait Real` (num.rs lines 127-129):
`PartialOrd + Field`. -/
def realSupertraits : List TraitBound := [.partialOrd, .field]

/-- The floating-point types of num.rs. -/
inductive FloatType
  | f32 | f64
  deriving DecidableEq

/-- The impls of `Real` (num.rs lines 132-133): `f32` and `f64`. -/
def realImpls : List FloatType := [.f32, .f64]

/-- Spec-side definition, following the words of spec section 4: the Integer
operation set of 4.1 together with the ModularInteger operation set of 4.2.
Used to compare the free-function inventory of the source against the set the
spec says the free functions cover. -/
def specSection4Ops : List OpName :=
  [.t_div, .t_mod, .f_div, .f_mod, .t_div_mod, .f_div_mod, .gcd, .lcm, .succ,
   .min_value, .max_value, .congruent, .pred]

/-- The truncated-division contract realised on ℤ (num.rs line 36):
`t_div(a, b) = trunc(a / b)`, the quotient rounded toward zero, which on ℤ is
`Int.tdiv`. -/
def t_div_int (a b : ℤ) : ℤ := Int.tdiv a b

/-- The truncated-remainder contract realised on ℤ (num.rs line 47):
`t_mod(a, b) = a - (b * t_div(a, b))`. -/
def t_mod_int (a b : ℤ) : ℤ := a - b * t_div_int a b

/-- The floored-division contract realised on ℤ (num.rs line 64):
`f_div(a, b) = ⌊a / b⌋`, which on ℤ is `Int.fdiv`. -/
def f_div_int (a b : ℤ) : ℤ := Int.fdiv a b

/-- The floored-remainder contract realised on ℤ (num.rs line 71):
`f_mod(a, b) = a - (b * f_div(a, b))`. -/
def f_mod_int (a b : ℤ) : ℤ := a - b * f_div_int a b

/-- The contract instance of `Integer` on ℤ: division and modulus follow the
documented contract equations; `gcd` and `lcm` are the usual nonnegative
greatest common divisor and least common multiple (spec section 8 fixes
`gcd(12,18)=6` and `lcm(4,6)=12`). -/
def contractInt : Integer ℤ where
  t_div := t_div_int
  t_mod := t_mod_int
  f_div := f_div_int
  f_mod := f_mod_int
  gcd := fun a b => (Int.gcd a b : ℤ)
  lcm := fun a b => (Int.lcm a b : ℤ)

/-- A `ModularInteger` instance over the ℤ contract instance, with the bounds
of a 64-bit two-complement machine word and congruence modulo 2^64. -/
def contractModInt : ModularInteger ℤ where
  toInteger := contractInt
  min_value := -9223372036854775808
  max_value := 9223372036854775807
  congruent := fun x y => decide ((x - y) % 18446744073709551616 = 0)

/-- Modelled from the spec: no concrete `Integer` implementation exists under
src/ (num.rs only declares the trait), and spec section 7 requires a concrete
type to signal the zero-divisor domain error by a mechanism such as result
failure.  These checked operations model the result-failure mechanism on the
ℤ contract instance: `none` signals the domain error, `some` carries the
result. -/
def Checked.t_div (a b : ℤ) : Option ℤ :=
  if b = 0 then none else some (t_div_int a b)

/-- Modelled from the spec: result-failure form of `t_mod`, as
`Checked.t_div`. -/
def Checked.t_mod (a b : ℤ) : Option ℤ :=
  if b = 0 then none else some (t_mod_int a b)

/-- Modelled from the spec: result-failure form of `f_div`, as
`Checked.t_div`. -/
def Checked.f_div (a b : ℤ) : Option ℤ :=
  if b = 0 then none else some (f_div_int a b)

/-- Modelled from the spec: result-failure form of `f_mod`, as
`Checked.t_div`. -/
def Checked.f_mod (a b : ℤ) : Option ℤ :=
  if b = 0 then none else some (f_mod_int a b)

/-- Claim C1: the default implementations of the combined forms never diverge
from the paired separate calls: `default_t_div_mod` is exactly
`(t_div, t_mod)` and `default_f_div_mod` is exactly `(f_div, f_mod)` of the
same instance, for every instance, including ones whose four primitives were
overridden arbitrarily; and an instance built with the default combined forms
has `t_div_mod` and `f_div_mod` equal to those pairs. -/
theorem default_div_mod_pairs {α : Type} [CommRing α] [LinearOrder α]
    (I : Integer α) (a b : α) :
    I.default_t_div_mod a b = (I.t_div a b, I.t_mod a b) ∧
      I.default_f_div_mod a b = (I.f_div a b, I.f_mod a b) ∧
      ({ t_div := I.t_div, t_mod := I.t_mod, f_div := I.f_div,
         f_mod := I.f_mod, gcd := I.gcd, lcm := I.lcm } : Integer α).t_div_mod
          a b = (I.t_div a b, I.t_mod a b) ∧
      ({ t_div := I.t_div, t_mod := I.t_mod, f_div := I.f_div,
         f_mod := I.f_mod, gcd := I.gcd, lcm := I.lcm } : Integer α).f_div_mod
          a b = (I.f_div a b, I.f_mod a b) :=
  ⟨rfl, rfl, rfl, rfl⟩

/-- Claim C3: the default `succ` is `x + one` and the default `pred` is
`x - one`, where `one` (`ident::unit()`) is the identity of multiplication of
the ring. -/
theorem default_succ_pred_eq {α : Type} [CommRing α] [LinearOrder α] (x : α) :
    Integer.default_succ x = x + 1 ∧ ModularInteger.default_pred x = x - 1 ∧
      ident.unit * x = x :=
  ⟨rfl, rfl, one_mul x⟩

/-- Claim C8: `Real` is a pure marker: its supertraits are
`PartialOrd + Field`, its body declares no operations, and it is implemented
exactly for `f32` and `f64`. -/
theorem real_marker_shape :
    realTraitOps = [] ∧ realSupertraits = [.partialOrd, .field] ∧
      realImpls = [.f32, .f64] :=
  ⟨rfl, rfl, rfl⟩

/-- Claim C10: the default `succ` and `pred` perform no bounds checking: at
every `x`, including the bounds of any `ModularInteger` instance, they are
literally the ring addition `x + one` and the ring subtraction `x - one`. -/
theorem default_succ_pred_unchecked {α : Type} [CommRing α] [LinearOrder α]
    (M : ModularInteger α) (x : α) :
    Integer.default_succ x = x + ident.unit ∧
      ModularInteger.default_pred x = x - ident.unit ∧
      Integer.default_succ M.max_value = M.max_value + ident.unit ∧
      ModularInteger.default_pred M.min_value = M.min_value - ident.unit :=
  ⟨rfl, rfl, rfl, rfl⟩

/-- The shape of the remainder contracts of num.rs lines 47 and 71:
`mod(a, b) = a - b * div(a, b)` for every `b ≠ 0`. -/
def ModContractHolds {α : Type} [CommRing α] (d m : α → α → α) : Prop :=
  ∀ a b : α, b ≠ 0 → m a b = a - b * d a b

/-- Claim C4: for any instance whose remainders satisfy the documented
contract equations, the round-trip identities
`a = b * t_div(a,b) + t_mod(a,b)` and `a = b * f_div(a,b) + f_mod(a,b)` hold
for every `a` and nonzero `b`. -/
theorem div_mod_round_trip {α : Type} [CommRing α] [LinearOrder α]
    (I : Integer α)
    (ht : ModContractHolds I.t_div I.t_mod)
    (hf : ModContractHolds I.f_div I.f_mod)
    (a b : α) (hb : b ≠ 0) :
    a = b * I.t_div a b + I.t_mod a b ∧ a = b * I.f_div a b + I.f_mod a b := by
  constructor
  · rw [ht a b hb]; ring
  · rw [hf a b hb]; ring

/-- Witness for claim C4: the round trip at the ℤ contract instance with
`a = 7`, `b = 2`. -/
theorem div_mod_round_trip_witness :
    (7 : ℤ) = 2 * contractInt.t_div 7 2 + contractInt.t_mod 7 2 ∧
      (7 : ℤ) = 2 * contractInt.f_div 7 2 + contractInt.f_mod 7 2 :=
  div_mod_round_trip contractInt (fun _ _ _ => rfl) (fun _ _ _ => rfl) 7 2
    (by decide)

/-- Claim C2: with the zero divisor `b = 0`, all four checked division and
modulus operations signal the domain error through the result-failure
mechanism (`none`) instead of returning a value. -/
theorem checked_zero_divisor_signals (a b : ℤ) (hb : b = 0) :
    Checked.t_div a b = none ∧ Checked.t_mod a b = none ∧
      Checked.f_div a b = none ∧ Checked.f_mod a b = none := by
  subst hb
  exact ⟨rfl, rfl, rfl, rfl⟩

/-- Witness for claim C2: the checked operations at `a = 7`, `b = 0`. -/
theorem checked_zero_divisor_signals_witness :
    Checked.t_div 7 0 = none ∧ Checked.t_mod 7 0 = none ∧
      Checked.f_div 7 0 = none ∧ Checked.f_mod 7 0 = none :=
  checked_zero_divisor_signals 7 0 rfl

/-- Claim C6: with the default `succ` and `pred`, `succ (pred x) = x` and
`pred (succ x) = x` for every `x` strictly inside the bounds of a
`ModularInteger` instance. -/
theorem succ_pred_roundtrip {α : Type} [CommRing α] [LinearOrder α]
    (M : ModularInteger α) (x : α)
    (hmin : M.min_value < x) (hmax : x < M.max_value) :
    Integer.default_succ (ModularInteger.default_pred x) = x ∧
      ModularInteger.default_pred (Integer.default_succ x) = x := by
  constructor
  · show x - ident.unit + ident.unit = x
    ring
  · show x + ident.unit - ident.unit = x
    ring

/-- Witness for claim C6: the round trip at the 64-bit style instance
`contractModInt` with `x = 0`, which lies strictly inside the bounds. -/
theorem succ_pred_roundtrip_witness :
    Integer.default_succ (ModularInteger.default_pred (0 : ℤ)) = 0 ∧
      ModularInteger.default_pred (Integer.default_succ (0 : ℤ)) = 0 :=
  succ_pred_roundtrip contractModInt 0 (by decide) (by decide)

/-- Counterexample to claim C7 as stated: `gcd` belongs to the operation set
of spec section 4, yet num.rs lines 97-125 define no free function for it
(only the six division and modulus forms). -/
theorem free_function_missing_for_gcd :
    OpName.gcd ∈ specSection4Ops ∧ OpName.gcd ∉ freeFunctionOps := by
  decide

/-- Claim C7 (amended): free-function forms exist exactly for the six
division and modulus operations, and each forwards to the implementation of
the instance unchanged. -/
theorem free_functions_forward {α : Type} [CommRing α] [LinearOrder α]
    (I : Integer α) (a b : α) :
    t_div I a b = I.t_div a b ∧ t_mod I a b = I.t_mod a b ∧
      t_div_mod I a b = I.t_div_mod a b ∧
      f_div I a b = I.f_div a b ∧ f_mod I a b = I.f_mod a b ∧
      f_div_mod I a b = I.f_div_mod a b ∧
      (∀ op : OpName, op ∈ freeFunctionOps → op ∈ specSection4Ops) ∧
      freeFunctionOps =
        [.t_div, .t_mod, .t_div_mod, .f_div, .f_mod, .f_div_mod] :=
  ⟨rfl, rfl, rfl, rfl, rfl, rfl, by decide, rfl⟩

/-- Claim C9: every operation of the two contracts is a pure function of its
inputs: equal arguments give equal results, on any instance.  The embedding
already types each operation as a function from argument values to a fresh
result value, mirroring the shared-reference-in, owned-value-out signatures
of the source. -/
theorem ops_functional {α : Type} [CommRing α] [LinearOrder α]
    (I : Integer α) (M : ModularInteger α) (a a2 b b2 : α)
    (ha : a = a2) (hb : b = b2) :
    I.succ a = I.succ a2 ∧
      I.t_div a b = I.t_div a2 b2 ∧ I.t_mod a b = I.t_mod a2 b2 ∧
      I.t_div_mod a b = I.t_div_mod a2 b2 ∧
      I.f_div a b = I.f_div a2 b2 ∧ I.f_mod a b = I.f_mod a2 b2 ∧
      I.f_div_mod a b = I.f_div_mod a2 b2 ∧
      I.gcd a b = I.gcd a2 b2 ∧ I.lcm a b = I.lcm a2 b2 ∧
      M.congruent a b = M.congruent a2 b2 ∧ M.pred a = M.pred a2 := by
  subst ha; subst hb
  exact ⟨rfl, rfl, rfl, rfl, rfl, rfl, rfl, rfl, rfl, rfl, rfl⟩

/-- Witness for claim C9: the purity statement at the ℤ instances with
`a = 7`, `b = 2`. -/
theorem ops_functional_witness :
    contractInt.succ 7 = contractInt.succ 7 ∧
      contractInt.t_div 7 2 = contractInt.t_div 7 2 ∧
      contractInt.t_mod 7 2 = contractInt.t_mod 7 2 ∧
      contractInt.t_div_mod 7 2 = contractInt.t_div_mod 7 2 ∧
      contractInt.f_div 7 2 = contractInt.f_div 7 2 ∧
      contractInt.f_mod 7 2 = contractInt.f_mod 7 2 ∧
      contractInt.f_div_mod 7 2 = contractInt.f_div_mod 7 2 ∧
      contractInt.gcd 7 2 = contractInt.gcd 7 2 ∧
      contractInt.lcm 7 2 = contractInt.lcm 7 2 ∧
      contractModInt.congruent 7 2 = contractModInt.congruent 7 2 ∧
      contractModInt.pred 7 = contractModInt.pred 7 :=
  ops_functional contractInt contractModInt 7 7 2 2 rfl rfl

/-- On ℤ the truncated-remainder contract equation yields `Int.tmod`. -/
theorem t_mod_int_eq_tmod (a b : ℤ) : t_mod_int a b = Int.tmod a b :=
  (Int.tmod_def a b).symm

/-- On ℤ the floored-remainder contract equation yields `Int.fmod`. -/
theorem f_mod_int_eq_fmod (a b : ℤ) : f_mod_int a b = Int.fmod a b :=
  (Int.fmod_def a b).symm

/-- The truncated remainder of a nonpositive dividend is nonpositive. -/
theorem tmod_nonpos_of_nonpos {a : ℤ} (b : ℤ) (ha : a ≤ 0) :
    Int.tmod a b ≤ 0 := by
  cases a with
  | ofNat m =>
    have hm : m = 0 := by
      simp only [Int.ofNat_eq_coe] at ha
      omega
    subst hm
    simp
  | negSucc m =>
    cases b with
    | ofNat n =>
      show -(Int.ofNat (Nat.succ m % n)) ≤ 0
      simp only [Int.ofNat_eq_coe]
      omega
    | negSucc n =>
      show -(Int.ofNat (Nat.succ m % Nat.succ n)) ≤ 0
      simp only [Int.ofNat_eq_coe]
      omega

/-- The floored remainder by a negative divisor is nonpositive. -/
theorem fmod_nonpos_of_neg (a : ℤ) {b : ℤ} (hb : b < 0) :
    Int.fmod a b ≤ 0 := by
  cases b with
  | ofNat n =>
    simp only [Int.ofNat_eq_coe] at hb
    omega
  | negSucc n =>
    cases a with
    | ofNat m =>
      cases m with
      | zero => simp [Int.fmod]
      | succ k =>
        show Int.subNatNat (k % Nat.succ n) n ≤ 0
        rw [Int.subNatNat_eq_coe]
        have : k % Nat.succ n < Nat.succ n := Nat.mod_lt _ (Nat.succ_pos n)
        omega
    | negSucc m =>
      show -(Int.ofNat (Nat.succ m % Nat.succ n)) ≤ 0
      simp only [Int.ofNat_eq_coe]
      omega

/-- Claim C5: under the contract equations realised on ℤ, for every `a` and
nonzero `b` the truncated remainder has the sign of the dividend or is zero
and the floored remainder has the sign of the divisor or is zero; and the
concrete values `t_div(7,2)=3`, `t_mod(7,2)=1`, `t_div(-7,2)=-3`,
`t_mod(-7,2)=-1`, `f_div(-7,2)=-4`, `f_mod(-7,2)=1` hold. -/
theorem sign_law_and_values (a b : ℤ) (hb : b ≠ 0) :
    (t_mod_int a b = 0 ∨ (t_mod_int a b).sign = a.sign) ∧
      (f_mod_int a b = 0 ∨ (f_mod_int a b).sign = b.sign) ∧
      t_div_int 7 2 = 3 ∧ t_mod_int 7 2 = 1 ∧
      t_div_int (-7) 2 = -3 ∧ t_mod_int (-7) 2 = -1 ∧
      f_div_int (-7) 2 = -4 ∧ f_mod_int (-7) 2 = 1 := by
  refine ⟨?_, ?_, by decide, by decide, by decide, by decide, by decide,
    by decide⟩
  · rw [t_mod_int_eq_tmod]
    rcases lt_trichotomy a 0 with ha | ha | ha
    · rcases (tmod_nonpos_of_nonpos b ha.le).lt_or_eq with h | h
      · right
        rw [Int.sign_eq_neg_one_of_neg h, Int.sign_eq_neg_one_of_neg ha]
      · left
        exact h
    · subst ha
      left
      simp
    · rcases (Int.tmod_nonneg b ha.le).lt_or_eq with h | h
      · right
        rw [Int.sign_eq_one_of_pos h, Int.sign_eq_one_of_pos ha]
      · left
        exact h.symm
  · rw [f_mod_int_eq_fmod]
    rcases lt_trichotomy b 0 with hneg | hzero | hpos
    · rcases (fmod_nonpos_of_neg a hneg).lt_or_eq with h | h
      · right
        rw [Int.sign_eq_neg_one_of_neg h, Int.sign_eq_neg_one_of_neg hneg]
      · left
        exact h
    · exact absurd hzero hb
    · rcases (Int.fmod_nonneg' a hpos).lt_or_eq with h | h
      · right
        rw [Int.sign_eq_one_of_pos h, Int.sign_eq_one_of_pos hpos]
      · left
        exact h.symm

/-- Witness for claim C5: the sign law and the concrete values at `a = 7`,
`b = 2`. -/
theorem sign_law_and_values_witness :
    (t_mod_int 7 2 = 0 ∨ (t_mod_int 7 2).sign = (7 : ℤ).sign) ∧
      (f_mod_int 7 2 = 0 ∨ (f_mod_int 7 2).sign = (2 : ℤ).sign) ∧
      t_div_int 7 2 = 3 ∧ t_mod_int 7 2 = 1 ∧
      t_div_int (-7) 2 = -3 ∧ t_mod_int (-7) 2 = -1 ∧
      f_div_int (-7) 2 = -4 ∧ f_mod_int (-7) 2 = 1 :=
  sign_law_and_values 7 2 (by decide)
